import Mathlib

/-!
Verification development for the Talk-to-the-DB backend (`server.js`).

The server is an Express app with four relevant routes; the claims concern
`POST /api/chat` (the chat pipeline) and `POST /api/query` (the diagnostic
query endpoint).  We shallowly embed the JavaScript code: `JSON.parse` is
modelled by an executable fueled JSON reader producing a `Js` value
(numbers are modelled as integers; no claim depends on fractional or
floating-point values), JavaScript property access and truthiness are
modelled explicitly (`JsField`, `truthyJs`), `JSON.stringify(v, null, 2)`
is modelled by `stringify2`, and the external collaborators (the mssql
pool and the Claude HTTP call) are oracles supplied in a `ChatEnv`.
-/

/-- Character-level whitespace test matching both JavaScript `trim` and
JSON whitespace for the inputs in scope (space, tab, newline, carriage
return). -/
def isWsChar (c : Char) : Bool :=
  c = ' ' || c = '\t' || c = '\n' || c = '\r'

/-- Drop leading whitespace characters. -/
def dropWsL (cs : List Char) : List Char :=
  cs.dropWhile isWsChar

/-- Trim both ends, as JavaScript `String.prototype.trim`. -/
def trimChars (cs : List Char) : List Char :=
  (dropWsL ((dropWsL cs.reverse)).reverse)

/-- Uppercase every character, as JavaScript `String.prototype.toUpperCase`
restricted to the ASCII inputs in scope. -/
def upChars (cs : List Char) : List Char :=
  cs.map Char.toUpper

/-- Prefix test on character lists, as `String.prototype.startsWith`. -/
def isPrefixOfChars : List Char → List Char → Bool
  | [], _ => true
  | _ :: _, [] => false
  | p :: ps, c :: cs => p = c && isPrefixOfChars ps cs

/-- Contiguous-substring test on character lists. -/
def containsChars (needle : List Char) : List Char → Bool
  | [] => isPrefixOfChars needle []
  | c :: cs => isPrefixOfChars needle (c :: cs) || containsChars needle cs

/-- First whitespace-delimited token of a character list. -/
def firstTokenChars (cs : List Char) : List Char :=
  (dropWsL cs).takeWhile (fun c => !isWsChar c)

mutual
/-- JavaScript value produced by `JSON.parse`, with JSON numbers modelled
as integers. -/
inductive Js where
  | null : Js
  | bool (b : Bool) : Js
  | num (n : Int) : Js
  | str (s : String) : Js
  | arr (elems : JsList) : Js
  | obj (fields : JsObj) : Js
  deriving DecidableEq

/-- A JavaScript array of values. -/
inductive JsList where
  | nil : JsList
  | cons (head : Js) (tail : JsList) : JsList
  deriving DecidableEq

/-- Field list of a JavaScript object, in insertion order. -/
inductive JsObj where
  | nil : JsObj
  | cons (key : String) (value : Js) (tail : JsObj) : JsObj
  deriving DecidableEq
end


/-- Result of a JavaScript property access: either `undefined` or a value.
`JSON.parse` itself never produces `undefined`, but accessing a missing
field does. -/
inductive JsField where
  | undefinedJs : JsField
  | val (v : Js) : JsField
  deriving DecidableEq

/-- JavaScript truthiness of a value (`NaN` does not arise in the integer
number model). -/
def truthyJs : Js → Bool
  | .null => false
  | .bool b => b
  | .num n => decide (n ≠ 0)
  | .str s => decide (s ≠ "")
  | .arr _ => true
  | .obj _ => true

/-- JavaScript truthiness of a property-access result. -/
def truthyField : JsField → Bool
  | .undefinedJs => false
  | .val v => truthyJs v

/-- First binding of a key in the field list of an object. -/
def JsObj.lookupKey : JsObj → String → JsField
  | .nil, _ => .undefinedJs
  | .cons k v tl, key => if k = key then .val v else tl.lookupKey key

/-- JavaScript property access `v[key]` for a non-null, non-undefined
receiver: a field of an object, `undefined` otherwise (numeric indices and
special properties such as `length` are not needed by the code).  Access on
`null` throws in JavaScript and is handled at the call site. -/
def getFld : Js → String → JsField
  | .obj fs, key => fs.lookupKey key
  | _, _ => .undefinedJs

/-- Left brace character as a string. -/
def lbrace : String := String.singleton '\x7b'

/-- Right brace character as a string. -/
def rbrace : String := String.singleton '\x7d'

/-- Hexadecimal digit for `n < 16`. -/
def hexDigit (n : Nat) : Char :=
  if n < 10 then Char.ofNat ('0'.toNat + n) else Char.ofNat ('a'.toNat + n - 10)

/-- JSON string escaping as performed by `JSON.stringify`. -/
def jsonEscapeChar (c : Char) : String :=
  if c = '"' then "\\\""
  else if c = '\\' then "\\\\"
  else if c = '\n' then "\\n"
  else if c = '\r' then "\\r"
  else if c = '\t' then "\\t"
  else if c = '\x08' then "\\b"
  else if c = '\x0c' then "\\f"
  else if c.toNat < 32 then
    "\\u00" ++ String.singleton (hexDigit (c.toNat / 16)) ++ String.singleton (hexDigit (c.toNat % 16))
  else String.singleton c

/-- Quoted, escaped JSON string literal. -/
def quoteJson (s : String) : String :=
  "\"" ++ String.join (s.toList.map jsonEscapeChar) ++ "\""

/-- Indentation produced by `JSON.stringify(v, null, 2)` at nesting level
`lvl`. -/
def indentStr (lvl : Nat) : String :=
  String.mk (List.replicate (2 * lvl) ' ')

mutual
/-- Model of `JSON.stringify(v, null, 2)` at nesting level `lvl`. -/
def stringify2 (lvl : Nat) : Js → String
  | .null => "null"
  | .bool b => if b then "true" else "false"
  | .num n => toString n
  | .str s => quoteJson s
  | .arr elems =>
    match elems with
    | .nil => "[]"
    | es => "[\n" ++ stringifyArr (lvl + 1) es ++ "\n" ++ indentStr lvl ++ "]"
  | .obj fields =>
    match fields with
    | .nil => lbrace ++ rbrace
    | fs => lbrace ++ "\n" ++ stringifyObj (lvl + 1) fs ++ "\n" ++ indentStr lvl ++ rbrace

/-- Array elements of `JSON.stringify` output, one per line, comma
separated. -/
def stringifyArr (lvl : Nat) : JsList → String
  | .nil => ""
  | .cons x .nil => indentStr lvl ++ stringify2 lvl x
  | .cons x tl => indentStr lvl ++ stringify2 lvl x ++ ",\n" ++ stringifyArr lvl tl

/-- Object members of `JSON.stringify` output, one per line, comma
separated. -/
def stringifyObj (lvl : Nat) : JsObj → String
  | .nil => ""
  | .cons k v .nil => indentStr lvl ++ quoteJson k ++ ": " ++ stringify2 lvl v
  | .cons k v tl =>
    indentStr lvl ++ quoteJson k ++ ": " ++ stringify2 lvl v ++ ",\n" ++ stringifyObj lvl tl
end

/-- Top-level `JSON.stringify(v, null, 2)`. -/
def stringifyTop (v : Js) : String := stringify2 0 v

mutual
/-- JavaScript string coercion of a value, as in a template literal. -/
def displayJs : Js → String
  | .null => "null"
  | .bool b => if b then "true" else "false"
  | .num n => toString n
  | .str s => s
  | .arr elems => displayList elems
  | .obj _ => "[object Object]"

/-- JavaScript `Array.prototype.toString`: elements joined by commas, with
`null` elements rendered empty. -/
def displayList : JsList → String
  | .nil => ""
  | .cons x .nil =>
    match x with
    | .null => ""
    | v => displayJs v
  | .cons x tl =>
    (match x with
     | .null => ""
     | v => displayJs v) ++ "," ++ displayList tl
end

/-- JavaScript string coercion of a property-access result, as in a
template literal (`undefined` renders as the text undefined). -/
def displayField : JsField → String
  | .undefinedJs => "undefined"
  | .val v => displayJs v

/-- Numeric value of a hexadecimal digit character. -/
def nibbleOfChar (c : Char) : Option Nat :=
  if c.isDigit then some (c.toNat - 48)
  else if 'a' ≤ c && c ≤ 'f' then some (c.toNat - 87)
  else if 'A' ≤ c && c ≤ 'F' then some (c.toNat - 55)
  else none

/-- Unescaped character for a single-character JSON escape. -/
def escChar (c : Char) : Option Char :=
  if c = '"' then some '"'
  else if c = '\\' then some '\\'
  else if c = '/' then some '/'
  else if c = 'n' then some '\n'
  else if c = 't' then some '\t'
  else if c = 'r' then some '\r'
  else if c = 'b' then some '\x08'
  else if c = 'f' then some '\x0c'
  else none

/-- Body of a JSON string after the opening quote: returns the decoded
characters and the input remaining after the closing quote. -/
def readStringChars : List Char → Except String (List Char × List Char)
  | [] => .error "unterminated string in JSON"
  | '"' :: rest => .ok ([], rest)
  | '\\' :: 'u' :: a :: b :: c :: d :: rest =>
    match nibbleOfChar a, nibbleOfChar b, nibbleOfChar c, nibbleOfChar d with
    | some ha, some hb, some hc, some hd =>
      match readStringChars rest with
      | .ok (cs, r) => .ok (Char.ofNat (ha * 4096 + hb * 256 + hc * 16 + hd) :: cs, r)
      | .error e => .error e
    | _, _, _, _ => .error "bad unicode escape in JSON"
  | '\\' :: e :: rest =>
    match escChar e with
    | some c =>
      match readStringChars rest with
      | .ok (cs, r) => .ok (c :: cs, r)
      | .error e2 => .error e2
    | none => .error "bad escape in JSON"
  | c :: rest =>
    if c.toNat < 32 then .error "bad control character in JSON string"
    else
      match readStringChars rest with
      | .ok (cs, r) => .ok (c :: cs, r)
      | .error e => .error e

/-- Decimal digit test. -/
def isDigitCh (c : Char) : Bool := c.isDigit

/-- Natural number denoted by a list of decimal digits. -/
def digitsToNat (ds : List Char) : Nat :=
  ds.foldl (fun acc c => 10 * acc + (c.toNat - 48)) 0

/-- JSON number token.  Numbers are modelled as integers; fractional and
exponent forms are outside the model (no claim depends on them, and
JavaScript floating-point semantics is deliberately not modelled). -/
def readIntToken (cs : List Char) : Except String (Js × List Char) :=
  let (neg, cs1) :=
    match cs with
    | '-' :: r => (true, r)
    | r => (false, r)
  let digs := cs1.takeWhile isDigitCh
  let rest := cs1.dropWhile isDigitCh
  if digs.isEmpty then .error "unexpected token in JSON"
  else
    match rest with
    | '.' :: _ => .error "fractional number outside the integer model"
    | 'e' :: _ => .error "exponent outside the integer model"
    | 'E' :: _ => .error "exponent outside the integer model"
    | _ =>
      let n : Int := Int.ofNat (digitsToNat digs)
      .ok (.num (if neg then -n else n), rest)

mutual
/-- Model of the `JSON.parse` value grammar, fueled for termination:
returns the parsed value and the remaining input. -/
def readJsonValue : Nat → List Char → Except String (Js × List Char)
  | 0, _ => .error "fuel exhausted"
  | fuel + 1, cs =>
    match dropWsL cs with
    | [] => .error "unexpected end of JSON input"
    | '"' :: rest =>
      match readStringChars rest with
      | .ok (content, r) => .ok (.str (String.mk content), r)
      | .error e => .error e
    | '[' :: rest =>
      (match dropWsL rest with
       | ']' :: r => .ok (.arr .nil, r)
       | r =>
         match readArrayItems fuel r with
         | .ok (es, r2) => .ok (.arr es, r2)
         | .error e => .error e)
    | 't' :: 'r' :: 'u' :: 'e' :: rest => .ok (.bool true, rest)
    | 'f' :: 'a' :: 'l' :: 's' :: 'e' :: rest => .ok (.bool false, rest)
    | 'n' :: 'u' :: 'l' :: 'l' :: rest => .ok (.null, rest)
    | c :: rest =>
      if c = '\x7b' then
        (match dropWsL rest with
         | d :: r =>
           if d = '\x7d' then .ok (.obj .nil, r)
           else
             match readObjectEntries fuel (d :: r) with
             | .ok (fs, r2) => .ok (.obj fs, r2)
             | .error e => .error e
         | [] => .error "unexpected end of JSON input")
      else readIntToken (c :: rest)

/-- Nonempty member list of a JSON object, up to and including the closing
brace. -/
def readObjectEntries : Nat → List Char → Except String (JsObj × List Char)
  | 0, _ => .error "fuel exhausted"
  | fuel + 1, cs =>
    match dropWsL cs with
    | '"' :: rest =>
      match readStringChars rest with
      | .error e => .error e
      | .ok (key, r1) =>
        match dropWsL r1 with
        | ':' :: r2 =>
          (match readJsonValue fuel r2 with
           | .error e => .error e
           | .ok (v, r3) =>
             match dropWsL r3 with
             | ',' :: r4 =>
               (match readObjectEntries fuel r4 with
                | .ok (tl, r5) => .ok (.cons (String.mk key) v tl, r5)
                | .error e => .error e)
             | c :: r4 =>
               if c = '\x7d' then .ok (.cons (String.mk key) v .nil, r4)
               else .error "expected comma or end of object in JSON"
             | [] => .error "unexpected end of JSON input")
        | _ => .error "expected colon in JSON object"
    | _ => .error "expected string key in JSON object"

/-- Nonempty element list of a JSON array, up to and including the closing
bracket. -/
def readArrayItems : Nat → List Char → Except String (JsList × List Char)
  | 0, _ => .error "fuel exhausted"
  | fuel + 1, cs =>
    match readJsonValue fuel cs with
    | .error e => .error e
    | .ok (v, r) =>
      match dropWsL r with
      | ',' :: r2 =>
        (match readArrayItems fuel r2 with
         | .ok (tl, r3) => .ok (.cons v tl, r3)
         | .error e => .error e)
      | ']' :: r2 => .ok (.cons v .nil, r2)
      | _ => .error "expected comma or end of array in JSON"
end

/-- Model of `JSON.parse`: succeeds iff the whole input is one JSON value
(within the integer number model), and fails — as the JavaScript builtin
throws — otherwise. -/
def jsonParse (s : String) : Except String Js :=
  match readJsonValue (2 * s.length + 2) s.toList with
  | .error e => .error e
  | .ok (v, rest) =>
    match dropWsL rest with
    | [] => .ok v
    | _ => .error "unexpected non-whitespace after JSON value"

deriving instance DecidableEq for Except

example : jsonParse "\x7b\"needsQuery\":true,\"query\":\"SELECT 1\"\x7d" =
    .ok (.obj (.cons "needsQuery" (.bool true) (.cons "query" (.str "SELECT 1") .nil))) := by
  decide

example : jsonParse "I do not know" = .error "unexpected token in JSON" := by
  decide

/-- Structured intent carried by the model reply, holding the raw
JavaScript values of the four fields the chat handler reads
(`server.js:162-172`).  A missing field is undefined. -/
structure ModelIntent where
  needsQuery : JsField
  query : JsField
  explanation : JsField
  response : JsField
  deriving DecidableEq

/-- The parse step of the inner chat-handler `try` (`server.js:162-164`):
`JSON.parse` on the model text followed by the first property accesses.
Parsing can fail, and property access on a parsed `null` throws a
`TypeError` in JavaScript; both failures land in the same `catch`. -/
def readIntent (raw : String) : Except String ModelIntent :=
  match jsonParse raw with
  | .error e => .error e
  | .ok .null => .error "TypeError: cannot read properties of null"
  | .ok p =>
    .ok ⟨getFld p "needsQuery", getFld p "query", getFld p "explanation", getFld p "response"⟩

/-- Intent actually in force after the inner `try`/`catch`
(`server.js:161-177`): the parsed fields verbatim on success, and the
fallback — treat the raw text as the final answer — when parsing (or the
first property access) throws.  Total by construction: the model of the
`catch` block. -/
def interpret (raw : String) : ModelIntent :=
  match readIntent raw with
  | .ok i => i
  | .error _ => ⟨.val (.bool false), .undefinedJs, .undefinedJs, .val (.str raw)⟩

/-- The guard condition `parsedResponse.needsQuery && parsedResponse.query`
(`server.js:164`): the query value to execute, if any. -/
def queryToRun (i : ModelIntent) : Option Js :=
  if truthyField i.needsQuery then
    match i.query with
    | .val q => if truthyJs q then some q else none
    | .undefinedJs => none
  else none

/-- The inner chat-handler `try`/`catch` (`server.js:160-177`): given the
raw model text and the store behaviour on a submitted query, returns the
final `claudeMessage`, the final `queryResult`, and the list of queries
submitted to the store.  A store error inside the `try` is caught by the
same `catch (parseError)` as a JSON parse error, leaving the raw text and
a null `queryResult` in place. -/
def innerStep (raw : String) (store : Js → Except String JsList) :
    JsField × Option JsList × List Js :=
  let i := interpret raw
  match queryToRun i with
  | some q =>
    match store q with
    | .ok rows =>
      (.val (.str (displayField i.response ++ "\n\nQuery Results:\n" ++ stringifyTop (.arr rows))),
       some rows, [q])
    | .error _ => (.val (.str raw), none, [q])
  | none => (i.response, none, [])

/-- External collaborators of one `POST /api/chat` request: the outcome of
`sql.connect` (`server.js:110`), of the catalog query (`server.js:113`), of
the Claude call as a function of the available tables (`server.js:135`),
the store behaviour on a submitted query (`server.js:166`), and the
clock reading used for the timestamp (`server.js:182`). -/
structure ChatEnv where
  connect : Except String Unit
  tables : Except String (List String)
  model : List String → Except String String
  store : Js → Except String JsList
  now : String

/-- Observable outcome of one `POST /api/chat` request: HTTP status, the
`response`, `queryResult` and `timestamp` fields of a 200 body, the
`details` field of a 500 body, whether the connection was acquired and
whether it was released (the `finally` block, `server.js:188-196`), and
the queries submitted to the store. -/
structure ChatOutcome where
  status : Nat
  respField : JsField
  queryResult : Option JsList
  timestamp : Option String
  errorDetails : Option String
  acquired : Bool
  released : Bool
  executed : List Js
  deriving DecidableEq

/-- The `POST /api/chat` handler (`server.js:104-197`): acquire the
connection, read the catalog, call the model, run the inner
parse/execute/compose step, and answer 200; any error thrown before the
inner step is caught by the outer `catch` and answered 500.  The `finally`
block releases the connection whenever it was acquired, on every path. -/
def chatHandler (env : ChatEnv) : ChatOutcome :=
  match env.connect with
  | .error e => ⟨500, .undefinedJs, none, none, some e, false, false, []⟩
  | .ok _ =>
    match env.tables with
    | .error e => ⟨500, .undefinedJs, none, none, some e, true, true, []⟩
    | .ok tbls =>
      match env.model tbls with
      | .error e => ⟨500, .undefinedJs, none, none, some e, true, true, []⟩
      | .ok raw =>
        match innerStep raw env.store with
        | (msg, qr, ex) => ⟨200, msg, qr, some env.now, none, true, true, ex⟩

/-- The pre-check of `POST /api/query` (`server.js:206`):
`query.trim().toUpperCase().startsWith(SELECT)`. -/
def startsWithSelectCheck (q : String) : Bool :=
  isPrefixOfChars ['S', 'E', 'L', 'E', 'C', 'T'] (upChars (trimChars q.toList))

/-- Observable outcome of one `POST /api/query` request. -/
structure QueryOutcome where
  status : Nat
  rows : Option JsList
  errorMsg : Option String
  deriving DecidableEq

/-- The `POST /api/query` handler (`server.js:200-225`): 400 when the
trimmed, uppercased query does not start with the prefix SELECT; otherwise
the query is executed, with 200 carrying the recordset on success and 500
carrying the store message when the store throws. -/
def queryEndpoint (q : String) (store : Js → Except String JsList) : QueryOutcome :=
  if !startsWithSelectCheck q then ⟨400, none, some "Only SELECT queries are allowed"⟩
  else
    match store (.str q) with
    | .ok rows => ⟨200, some rows, none⟩
    | .error e => ⟨500, none, some e⟩

/-- Verdict of the query guard: whether execution is allowed, with a
reason when denied. -/
structure QueryVerdict where
  allowed : Bool
  reason : Option String
  deriving DecidableEq

/-- Keywords forbidden anywhere in a candidate query. -/
def forbiddenKeywords : List String :=
  ["INSERT", "UPDATE", "DELETE", "DROP", "ALTER", "CREATE",
   "TRUNCATE", "MERGE", "EXEC", "EXECUTE", "GRANT", "REVOKE"]

/-- Trailing whitespace and semicolons stripped from the end. -/
def dropTrailingJunk (cs : List Char) : List Char :=
  (cs.reverse.dropWhile (fun c => isWsChar c || c = ';')).reverse

/-- A bare semicolon followed by further non-whitespace content: once
trailing whitespace and semicolons are stripped, any remaining semicolon
precedes the non-junk end of the statement. -/
def hasSecondaryStatement (cs : List Char) : Bool :=
  (dropTrailingJunk cs).contains ';'

/-- Modelled from the spec: `QueryGuard.validate` (spec section 4.5) has no
implementation in the source — the chat pipeline executes model-proposed
queries with no such gate — so the policy is taken from the words of the spec:
trim; reject empty; reject a secondary statement after a semicolon; reject
a first token other than SELECT (case-insensitive); reject any forbidden
keyword anywhere in the text; otherwise allow. -/
def QueryGuard.validate (q : String) : QueryVerdict :=
  let t := trimChars q.toList
  if t.isEmpty then ⟨false, some "empty query"⟩
  else if hasSecondaryStatement t then ⟨false, some "multiple statements are not allowed"⟩
  else if upChars (firstTokenChars t) ≠ ['S', 'E', 'L', 'E', 'C', 'T'] then
    ⟨false, some "only SELECT statements are allowed"⟩
  else if forbiddenKeywords.any (fun k => containsChars k.toList (upChars t)) then
    ⟨false, some "forbidden keyword"⟩
  else ⟨true, none⟩

/-- Options object passed to the HTTP client for a request. -/
structure AxiosRequestConfig where
  headers : List (String × String)
  timeout : Option Nat
  deriving DecidableEq

/-- The options object passed to `axios.post` for the Claude call
(`server.js:149-155`): it carries only the three headers — no `timeout`
key — so the axios default of no timeout applies to the model call. -/
def chatModelRequestConfig (apiKey : String) : AxiosRequestConfig :=
  ⟨[("Authorization", "Bearer " ++ apiKey),
    ("Content-Type", "application/json"),
    ("x-api-key", apiKey)], none⟩

/-- First whitespace-delimited token of the trimmed query is SELECT,
case-insensitively — the claim-side reading of the `POST /api/query`
pre-check, for comparison with `startsWithSelectCheck`. -/
def firstTokenIsSelect (q : String) : Bool :=
  upChars (firstTokenChars (trimChars q.toList)) = ['S', 'E', 'L', 'E', 'C', 'T']

/-- Store oracle that answers every query with an empty recordset. -/
def emptyStore : Js → Except String JsList := fun _ => .ok .nil

/-- Store oracle that rejects every query with the given message. -/
def failingStore (msg : String) : Js → Except String JsList := fun _ => .error msg

/-- Store oracle that answers every query with the given recordset. -/
def constStore (rows : JsList) : Js → Except String JsList := fun _ => .ok rows

/-- Chat environment in which connection, catalog and model call all
succeed, the model answers with the given raw text, and the store behaves
as given. -/
def mkEnv (raw : String) (store : Js → Except String JsList) : ChatEnv :=
  ⟨.ok (), .ok [], fun _ => .ok raw, store, "2026-01-01T00:00:00.000Z"⟩

/-- Model reply proposing a DROP statement, for the guard claims. -/
def rawDrop : String :=
  "\x7b\"needsQuery\":true,\"query\":\"DROP TABLE Users\",\"response\":\"ok\"\x7d"

/-- C1: the chat pipeline has no guard: a model reply proposing
`DROP TABLE Users` is rejected by the QueryGuard policy of the spec, yet the
handler submits exactly that query to the store. -/
theorem chat_executes_guard_rejected_query :
    (QueryGuard.validate "DROP TABLE Users").allowed = false ∧
    (chatHandler (mkEnv rawDrop emptyStore)).executed = [Js.str "DROP TABLE Users"] := by
  decide

/-- Model reply proposing a query the store will reject, for the
error-handling claim. -/
def rawBadQuery : String :=
  "\x7b\"needsQuery\":true,\"query\":\"SELECT * FROM NoSuchTable\",\"response\":\"hi\"\x7d"

/-- C2: when the store rejects the query, the inner `catch (parseError)`
swallows the failure: the request completes with status 200, the raw model
text as the response, a null `queryResult`, and no error detail — not a
5xx carrying the store message. -/
theorem chat_store_error_swallowed :
    (chatHandler (mkEnv rawBadQuery (failingStore "Invalid object name NoSuchTable"))).status = 200 ∧
    (chatHandler (mkEnv rawBadQuery (failingStore "Invalid object name NoSuchTable"))).respField
      = .val (.str rawBadQuery) ∧
    (chatHandler (mkEnv rawBadQuery (failingStore "Invalid object name NoSuchTable"))).queryResult
      = none ∧
    (chatHandler (mkEnv rawBadQuery (failingStore "Invalid object name NoSuchTable"))).errorDetails
      = none := by
  decide

/-- C3: `interpret` is total — the model of the `catch` block — and for
every input string it returns the fallback intent
(needsQuery false, query and explanation absent, the raw text as the
response) exactly when reading the intent fails (JSON parse failure, or a
parsed `null`, whose property access throws into the same catch), and the
parsed fields verbatim, unsanitized, when reading succeeds. -/
theorem interpret_fallback_or_verbatim (raw : String) :
    (∀ e, readIntent raw = .error e →
      interpret raw = ⟨.val (.bool false), .undefinedJs, .undefinedJs, .val (.str raw)⟩) ∧
    (∀ i, readIntent raw = .ok i → interpret raw = i) := by
  constructor
  · intro e h
    unfold interpret
    rw [h]
  · intro i h
    unfold interpret
    rw [h]

/-- Witness for C3 at the non-JSON model reply of scenario D. -/
theorem interpret_fallback_or_verbatim_witness :
    readIntent "I do not know" = .error "unexpected token in JSON" ∧
    interpret "I do not know" =
      ⟨.val (.bool false), .undefinedJs, .undefinedJs, .val (.str "I do not know")⟩ :=
  ⟨by decide,
   (interpret_fallback_or_verbatim "I do not know").1 "unexpected token in JSON" (by decide)⟩

/-- C4 counterexample: the check in the endpoint is a prefix test, not a
first-token test — for the body query SELECTED 1 the first token is not
SELECT, yet the request is accepted and answers 200. -/
theorem query_endpoint_prefix_not_token_cex :
    firstTokenIsSelect "SELECTED 1" = false ∧
    (queryEndpoint "SELECTED 1" emptyStore).status = 200 := by
  decide

/-- C4 amended: `POST /api/query` answers 400 with an error exactly when
the trimmed, uppercased query does not start with the prefix SELECT;
when it does, the query is executed — 200 with the recordset if the store
succeeds, 500 with the store message if it throws. -/
theorem query_endpoint_status (q : String) (store : Js → Except String JsList) :
    ((queryEndpoint q store).status = 400 ↔ startsWithSelectCheck q = false) ∧
    (startsWithSelectCheck q = true →
      (∀ rows, store (.str q) = .ok rows → queryEndpoint q store = ⟨200, some rows, none⟩) ∧
      (∀ e, store (.str q) = .error e → queryEndpoint q store = ⟨500, none, some e⟩)) := by
  constructor
  · cases h : startsWithSelectCheck q with
    | false => simp [queryEndpoint, h]
    | true =>
      simp only [queryEndpoint, h, Bool.not_true, Bool.false_eq_true, if_false, iff_false]
      cases hs : store (.str q) <;> simp [hs]
  · intro h
    constructor
    · intro rows hs
      simp [queryEndpoint, h, hs]
    · intro e hs
      simp [queryEndpoint, h, hs]

/-- Witness for the amended statement of C4 on a well-formed SELECT. -/
theorem query_endpoint_status_witness :
    queryEndpoint "SELECT 1" emptyStore = ⟨200, some .nil, none⟩ ∧
    startsWithSelectCheck "SELECT 1" = true :=
  ⟨((query_endpoint_status "SELECT 1" emptyStore).2 (by decide)).1 .nil rfl, by decide⟩

/-- C5: when no query runs, the 200 body carries a null `queryResult`, the
`response` value of the intent unchanged, and the clock reading taken when the
body is composed. -/
theorem chat_no_query_response_unchanged
    (env : ChatEnv) (raw : String) (tbls : List String)
    (hc : env.connect = .ok ()) (ht : env.tables = .ok tbls)
    (hm : env.model tbls = .ok raw)
    (hq : queryToRun (interpret raw) = none) :
    (chatHandler env).status = 200 ∧
    (chatHandler env).queryResult = none ∧
    (chatHandler env).respField = (interpret raw).response ∧
    (chatHandler env).timestamp = some env.now := by
  simp [chatHandler, innerStep, hc, ht, hm, hq]

/-- Witness for C5 at the non-JSON model reply of scenario D. -/
theorem chat_no_query_response_unchanged_witness :
    queryToRun (interpret "I do not know") = none ∧
    (chatHandler (mkEnv "I do not know" emptyStore)).queryResult = none ∧
    (chatHandler (mkEnv "I do not know" emptyStore)).respField =
      (interpret "I do not know").response :=
  ⟨by decide,
   (chat_no_query_response_unchanged (mkEnv "I do not know" emptyStore) "I do not know" []
     rfl rfl rfl (by decide)).2.1,
   (chat_no_query_response_unchanged (mkEnv "I do not know" emptyStore) "I do not know" []
     rfl rfl rfl (by decide)).2.2.1⟩

/-- Model reply with both an explanation and a response, for the composer
claim. -/
def rawExpl : String :=
  "\x7b\"needsQuery\":true,\"query\":\"SELECT 1\",\"explanation\":\"E\",\"response\":\"R\"\x7d"

/-- A one-row recordset with a single column. -/
def oneRowA : JsList := .cons (.obj (.cons "a" (.num 1) .nil)) .nil

/-- C6 counterexample: the handler never uses `explanation` when composing
— with both fields present it appends the rendered rows to `response`,
which differs from the text the claim prescribes. -/
theorem chat_compose_ignores_explanation_cex :
    (interpret rawExpl).explanation = .val (.str "E") ∧
    (chatHandler (mkEnv rawExpl (constStore oneRowA))).respField =
      .val (.str ("R\n\nQuery Results:\n" ++ stringifyTop (.arr oneRowA))) ∧
    "R\n\nQuery Results:\n" ++ stringifyTop (.arr oneRowA) ≠
      "E\n\nQuery Results:\n" ++ stringifyTop (.arr oneRowA) := by
  decide

/-- C6 amended: when the intent requests a query and the store returns a
recordset, the 200 body sets `queryResult` to that recordset and its
response is the `response` value of the intent (never `explanation`) with the
rendered rows appended. -/
theorem chat_with_result_appends_rendered
    (env : ChatEnv) (raw : String) (tbls : List String) (q : Js) (rows : JsList)
    (hc : env.connect = .ok ()) (ht : env.tables = .ok tbls)
    (hm : env.model tbls = .ok raw)
    (hq : queryToRun (interpret raw) = some q)
    (hs : env.store q = .ok rows) :
    (chatHandler env).queryResult = some rows ∧
    (chatHandler env).respField =
      .val (.str (displayField (interpret raw).response ++ "\n\nQuery Results:\n" ++
        stringifyTop (.arr rows))) := by
  simp [chatHandler, innerStep, hc, ht, hm, hq, hs]

/-- Scenario E model reply: a COUNT query with response text here. -/
def rawScenE : String :=
  "\x7b\"needsQuery\":true,\"query\":\"SELECT COUNT(*) FROM Orders\",\"response\":\"here\"\x7d"

/-- Scenario E recordset: one row mapping the empty column name to 5. -/
def oneRowCount : JsList := .cons (.obj (.cons "" (.num 5) .nil)) .nil

/-- Witness for the amended statement of C6 at scenario E, including the
rendered row text. -/
theorem chat_with_result_appends_rendered_witness :
    queryToRun (interpret rawScenE) = some (.str "SELECT COUNT(*) FROM Orders") ∧
    (chatHandler (mkEnv rawScenE (constStore oneRowCount))).queryResult = some oneRowCount ∧
    (chatHandler (mkEnv rawScenE (constStore oneRowCount))).respField =
      .val (.str "here\n\nQuery Results:\n[\n  \x7b\n    \"\": 5\n  \x7d\n]") :=
  ⟨by decide,
   (chat_with_result_appends_rendered (mkEnv rawScenE (constStore oneRowCount)) rawScenE []
     (.str "SELECT COUNT(*) FROM Orders") oneRowCount rfl rfl rfl (by decide) rfl).1,
   by decide⟩

/-- C7: the connection is acquired exactly when `sql.connect` succeeds, and
whenever it is acquired the `finally` block releases it — on the success
path and on every error path. -/
theorem chat_connection_scoped (env : ChatEnv) :
    ((chatHandler env).acquired = true ↔ env.connect = .ok ()) ∧
    ((chatHandler env).acquired = true → (chatHandler env).released = true) := by
  cases hc : env.connect with
  | error e => simp [chatHandler, hc]
  | ok u =>
    cases u
    cases ht : env.tables with
    | error e => simp [chatHandler, hc, ht]
    | ok t =>
      cases hm : env.model t with
      | error e => simp [chatHandler, hc, ht, hm]
      | ok raw =>
        rcases h : innerStep raw env.store with ⟨msg, qr, ex⟩
        simp [chatHandler, hc, ht, hm, h]

/-- Witness for C7 on a fully successful request. -/
theorem chat_connection_scoped_witness :
    (chatHandler (mkEnv "x" emptyStore)).released = true ∧
    (chatHandler (mkEnv "x" emptyStore)).acquired = true :=
  ⟨(chat_connection_scoped (mkEnv "x" emptyStore)).2 (by decide), by decide⟩

/-- C8: the options object for the model-service call carries no timeout,
for any API key — the axios default of an unbounded call applies, so no
request-level timeout bounds the upstream call and no timeout error kind
exists to classify expiry. -/
theorem chat_model_call_has_no_timeout (apiKey : String) :
    (chatModelRequestConfig apiKey).timeout = none := rfl

/-- C9: when the parsed intent has a truthy `needsQuery` but a falsy
`query` (absent, empty or otherwise falsy), no query reaches the store,
`queryResult` stays null, and the response is the `response` of the intent
value. -/
theorem chat_falsy_query_not_executed
    (env : ChatEnv) (raw : String) (tbls : List String)
    (hc : env.connect = .ok ()) (ht : env.tables = .ok tbls)
    (hm : env.model tbls = .ok raw)
    (hn : truthyField (interpret raw).needsQuery = true)
    (hq : truthyField (interpret raw).query = false) :
    (chatHandler env).executed = [] ∧
    (chatHandler env).queryResult = none ∧
    (chatHandler env).respField = (interpret raw).response := by
  have hqr : queryToRun (interpret raw) = none := by
    unfold queryToRun
    rw [hn]
    cases hv : (interpret raw).query with
    | undefinedJs => simp
    | val v =>
      rw [hv] at hq
      simp [truthyField] at hq
      simp [hq]
  simp [chatHandler, innerStep, hc, ht, hm, hqr]

/-- Witness for C9 at a reply requesting a query without providing one. -/
theorem chat_falsy_query_not_executed_witness :
    truthyField (interpret "\x7b\"needsQuery\":true,\"response\":\"hi\"\x7d").needsQuery = true ∧
    (chatHandler (mkEnv "\x7b\"needsQuery\":true,\"response\":\"hi\"\x7d" emptyStore)).executed
      = [] :=
  ⟨by decide,
   (chat_falsy_query_not_executed
     (mkEnv "\x7b\"needsQuery\":true,\"response\":\"hi\"\x7d" emptyStore)
     "\x7b\"needsQuery\":true,\"response\":\"hi\"\x7d" []
     rfl rfl rfl (by decide) (by decide)).1⟩

/-- C10: when the model text parses to a usable JSON value whose `response`
field is missing and no query is requested, the response of the 200 body is
`undefined` (omitted), not a string — the raw-text fallback applies only
when reading the intent fails. -/
theorem chat_missing_response_absent
    (env : ChatEnv) (raw : String) (tbls : List String) (p : Js)
    (hc : env.connect = .ok ()) (ht : env.tables = .ok tbls)
    (hm : env.model tbls = .ok raw)
    (hp : jsonParse raw = .ok p) (hnn : p ≠ .null)
    (hr : getFld p "response" = .undefinedJs)
    (hq : queryToRun (interpret raw) = none) :
    (chatHandler env).respField = .undefinedJs := by
  have hi : interpret raw =
      ⟨getFld p "needsQuery", getFld p "query", getFld p "explanation", getFld p "response"⟩ := by
    unfold interpret readIntent
    rw [hp]
    cases p with
    | null => exact absurd rfl hnn
    | bool b => rfl
    | num n => rfl
    | str s => rfl
    | arr es => rfl
    | obj fs => rfl
  have hresp : (interpret raw).response = .undefinedJs := by rw [hi]; exact hr
  simp [chatHandler, innerStep, hc, ht, hm, hq, hresp]

/-- Witness for C10 at a reply that parses but lacks a response field. -/
theorem chat_missing_response_absent_witness :
    jsonParse "\x7b\"needsQuery\":false\x7d" =
      .ok (.obj (.cons "needsQuery" (.bool false) .nil)) ∧
    (chatHandler (mkEnv "\x7b\"needsQuery\":false\x7d" emptyStore)).respField = .undefinedJs :=
  ⟨by decide,
   chat_missing_response_absent
     (mkEnv "\x7b\"needsQuery\":false\x7d" emptyStore)
     "\x7b\"needsQuery\":false\x7d" []
     (.obj (.cons "needsQuery" (.bool false) .nil))
     rfl rfl rfl (by decide) (by decide) (by decide) (by decide)⟩
